import Mathlib

/- Shallow embedding of the light-time solver of
   include/tudat/astro/observation_models/lightTimeSolution.h.

   Floating-point doubles are embedded as exact reals, the TUDAT_NAN sentinel as
   Option, mutation of the per-calculator result cache as explicit state passing,
   std::runtime_error as an Except error value carrying the numeric payload of the
   message, and the std::cerr warnings as an explicit list of warning records.
   The while loop is embedded with explicit fuel: a result of none means the loop
   had not exited within the given number of iterations. -/

namespace LightTime

/-- Tag standing for the numeric template parameter ObservationScalarType
(double or long double); the embedding computes with exact reals. -/
inductive ScalarTag where
  | doubleTag
  | longDoubleTag
deriving DecidableEq

/-- Modelled from the spec: `getDefaultLightTimeTolerance<ScalarType>` is declared at
lightTimeSolution.h line 39 but its definition is not among the provided sources; the
spec says it returns a builtin default tolerance sized to the numeric type's
precision, tighter for higher-precision types. -/
noncomputable def getDefaultLightTimeTolerance : ScalarTag → ℝ
  | ScalarTag.doubleTag => 1 / 10 ^ 12
  | ScalarTag.longDoubleTag => 1 / 10 ^ 15

/-- Embedding of enum LightTimeFailureHandling (lightTimeSolution.h lines 48-53). -/
inductive LightTimeFailureHandling where
  | accept_without_warning
  | print_warning_and_accept
  | throw_exception
deriving DecidableEq

/-- Embedding of struct LightTimeConvergenceCriteria (lines 55-89). The C++ member
absoluteTolerance_ is a double defaulting to TUDAT_NAN, and the self-equality test
in getAbsoluteTolerance is the usual NaN test; the member is therefore embedded as
an Option, with none standing for the NaN (unset) sentinel. -/
structure LightTimeConvergenceCriteria where
  iterateCorrections_ : Bool := false
  maximumNumberOfIterations_ : ℤ := 50
  failureHandling_ : LightTimeFailureHandling := LightTimeFailureHandling.accept_without_warning
  absoluteTolerance_ : Option ℝ := none

/-- Embedding of LightTimeConvergenceCriteria::getAbsoluteTolerance<ScalarType>
(lines 67-79): the explicit tolerance when it is set (non-NaN), else the builtin
default for the scalar type. The function reads the configuration and has no side
effects. -/
noncomputable def LightTimeConvergenceCriteria.getAbsoluteTolerance
    (criteria : LightTimeConvergenceCriteria) (tag : ScalarTag) : ℝ :=
  match criteria.absoluteTolerance_ with
  | some tolerance => tolerance
  | none => getDefaultLightTimeTolerance tag

/-- Embedding of Eigen::Matrix<Scalar, 6, 1>: three position and three velocity
components. -/
structure Vec6 where
  x : ℝ
  y : ℝ
  z : ℝ
  vx : ℝ
  vy : ℝ
  vz : ℝ

/-- Euclidean norm of the position block of the difference of two states,
`(a - b).segment(0, 3).norm()`. -/
noncomputable def positionDistance (a b : Vec6) : ℝ :=
  Real.sqrt ((a.x - b.x) ^ 2 + (a.y - b.y) ^ 2 + (a.z - b.z) ^ 2)

/-- Modelled from the spec: physical_constants::getSpeedOfLight (physicalConstants.h
is not among the provided sources); the signal propagation speed in m/s. -/
noncomputable def getSpeedOfLight : ℝ := 299792458

/-- Numeric content of the error message built at lightTimeSolution.h lines 123-129:
the convergence residual |new - previous|, the current total light-time correction,
and the input time of the solve. -/
structure LightTimeWarning where
  residual : ℝ
  currentCorrection : ℝ
  currentTime : ℝ

/-- Errors thrown by the solver (std::runtime_error in the C++); each variant keeps
the numeric payload of the corresponding message. -/
inductive LightTimeError where
  | inconsistentMultiLegInput
  | lightTimeUnconverged (warning : LightTimeWarning)
  | invalidRetransmissionDelaysSize (size expectedFull expectedTrimmed : ℕ)
  | nonzeroReferenceLinkEndDelay
  | outOfRange

/-- Result of one call of isLightTimeSolutionConverged: the returned boolean, the
value of the by-reference updateLightTimeCorrections flag after the call, and any
messages printed to std::cerr during the call. -/
structure ConvergenceCheckResult where
  isToleranceReached : Bool
  updateLightTimeCorrections : Bool
  warnings : List LightTimeWarning

/-- Embedding of isLightTimeSolutionConverged (lines 91-147). Note that in the
source the print_warning_and_accept case prints the message but leaves
isToleranceReached false. -/
noncomputable def isLightTimeSolutionConverged (tag : ScalarTag)
    (convergenceCriteria : LightTimeConvergenceCriteria)
    (previousLightTimeCalculation newLightTimeCalculation : ℝ)
    (numberOfIterations : ℤ) (currentCorrection : ℝ) (currentTime : ℝ)
    (updateLightTimeCorrections : Bool) :
    Except LightTimeError ConvergenceCheckResult :=
  if |newLightTimeCalculation - previousLightTimeCalculation| <
      convergenceCriteria.getAbsoluteTolerance tag then
    if !updateLightTimeCorrections then
      Except.ok ⟨false, true, []⟩
    else
      Except.ok ⟨true, updateLightTimeCorrections, []⟩
  else if numberOfIterations = convergenceCriteria.maximumNumberOfIterations_ then
    let errorMessage : LightTimeWarning :=
      ⟨|newLightTimeCalculation - previousLightTimeCalculation|, currentCorrection,
        currentTime⟩
    match convergenceCriteria.failureHandling_ with
    | LightTimeFailureHandling.accept_without_warning =>
        Except.ok ⟨true, updateLightTimeCorrections, []⟩
    | LightTimeFailureHandling.print_warning_and_accept =>
        Except.ok ⟨false, updateLightTimeCorrections, [errorMessage]⟩
    | LightTimeFailureHandling.throw_exception =>
        Except.error (LightTimeError.lightTimeUnconverged errorMessage)
  else
    Except.ok ⟨false, updateLightTimeCorrections, []⟩

/-- Embedding of LightTimeCorrectionFunction and of
LightTimeCorrection::calculateLightTimeCorrection: transmitter state, receiver
state, transmission time, reception time to a scalar correction in seconds. -/
def LightTimeCorrectionFunction : Type :=
  Vec6 → Vec6 → ℝ → ℝ → ℝ

/-- Embedding of class LightTimeCalculator (lines 257-636): the two state
providers, the registered corrections, the convergence criteria, and the mutable
result cache (currentIdealLightTime_, currentCorrection_), embedded as record
fields updated by state passing. -/
structure LightTimeCalculator where
  stateFunctionOfTransmittingBody_ : ℝ → Vec6
  stateFunctionOfReceivingBody_ : ℝ → Vec6
  correctionFunctions_ : List LightTimeCorrectionFunction
  lightTimeConvergenceCriteria_ : LightTimeConvergenceCriteria
  currentIdealLightTime_ : ℝ
  currentCorrection_ : ℝ

/-- Embedding of LightTimeCalculator::setTotalLightTimeCorrection (lines 620-634):
sums all registered correction providers at the given states and times and stores
the sum in the currentCorrection_ cache. -/
noncomputable def LightTimeCalculator.setTotalLightTimeCorrection
    (calculator : LightTimeCalculator) (transmitterState receiverState : Vec6)
    (transmissionTime receptionTime : ℝ) : LightTimeCalculator :=
  { calculator with
    currentCorrection_ :=
      calculator.correctionFunctions_.foldl
        (fun total f =>
          total + f transmitterState receiverState transmissionTime receptionTime) 0 }

/-- Embedding of LightTimeCalculator::calculateNewLightTimeEstimate (lines 601-609):
stores the ideal (uncorrected) light time in the cache and returns
ideal + currentCorrection_. -/
noncomputable def LightTimeCalculator.calculateNewLightTimeEstimate
    (calculator : LightTimeCalculator) (receiverState transmitterState : Vec6) :
    LightTimeCalculator × ℝ :=
  let ideal := positionDistance receiverState transmitterState / getSpeedOfLight
  ({ calculator with currentIdealLightTime_ := ideal },
    ideal + calculator.currentCorrection_)

/-- State of the while loop of calculateLightTimeWithMultiLegLinkEndsStates
(lines 462-492). -/
structure LightTimeLoopState where
  calculator : LightTimeCalculator
  receptionTime : ℝ
  transmissionTime : ℝ
  receiverState : Vec6
  transmitterState : Vec6
  previousLightTimeCalculation : ℝ
  counter : ℤ
  updateLightTimeCorrections : Bool

/-- Outcome of one iteration of the while loop. -/
inductive LightTimeStepOutcome where
  | continueLoop (state : LightTimeLoopState) (warnings : List LightTimeWarning)
  | exitLoop (state : LightTimeLoopState) (warnings : List LightTimeWarning)
  | thrown (e : LightTimeError)

/-- Embedding of one iteration of the while loop body (lines 462-492): optional
correction refresh, update of the unknown link end, new estimate, convergence
check, counter increment. -/
noncomputable def lightTimeIterationStep (tag : ScalarTag) (time : ℝ)
    (isTimeAtReception : Bool) (s : LightTimeLoopState) : LightTimeStepOutcome :=
  let calculator1 :=
    if s.updateLightTimeCorrections then
      s.calculator.setTotalLightTimeCorrection s.transmitterState s.receiverState
        s.transmissionTime s.receptionTime
    else s.calculator
  let receptionTime :=
    if isTimeAtReception then time else time + s.previousLightTimeCalculation
  let transmissionTime :=
    if isTimeAtReception then time - s.previousLightTimeCalculation else time
  let transmitterState :=
    if isTimeAtReception then calculator1.stateFunctionOfTransmittingBody_ transmissionTime
    else s.transmitterState
  let receiverState :=
    if isTimeAtReception then s.receiverState
    else calculator1.stateFunctionOfReceivingBody_ receptionTime
  let next := calculator1.calculateNewLightTimeEstimate receiverState transmitterState
  match isLightTimeSolutionConverged tag calculator1.lightTimeConvergenceCriteria_
      s.previousLightTimeCalculation next.2 s.counter
      next.1.currentCorrection_ time s.updateLightTimeCorrections with
  | Except.error e => LightTimeStepOutcome.thrown e
  | Except.ok r =>
      let s2 : LightTimeLoopState :=
        ⟨next.1, receptionTime, transmissionTime, receiverState, transmitterState,
          next.2, s.counter + 1, r.updateLightTimeCorrections⟩
      if r.isToleranceReached then LightTimeStepOutcome.exitLoop s2 r.warnings
      else LightTimeStepOutcome.continueLoop s2 r.warnings

/-- Fuel-indexed run of the while loop; none means the loop had not exited within
the given number of iterations. -/
noncomputable def lightTimeLoop (tag : ScalarTag) (time : ℝ) (isTimeAtReception : Bool) :
    ℕ → LightTimeLoopState → List LightTimeWarning →
    Option (Except LightTimeError (LightTimeLoopState × List LightTimeWarning))
  | 0, _, _ => none
  | fuel + 1, s, warnings =>
    match lightTimeIterationStep tag time isTimeAtReception s with
    | LightTimeStepOutcome.thrown e => some (Except.error e)
    | LightTimeStepOutcome.exitLoop s2 w => some (Except.ok (s2, warnings ++ w))
    | LightTimeStepOutcome.continueLoop s2 w =>
        lightTimeLoop tag time isTimeAtReception fuel s2 (warnings ++ w)

/-- Embedding of the seed selection of calculateLightTimeWithMultiLegLinkEndsStates
(lines 421-439), returning (receptionTime, transmissionTime): when both warm-start
times are finite (non-NaN, embedded as some) they are used; otherwise both ends are
seeded at the input time (zero light time). -/
def initialGuessTimes (linkEndsTimes : List (Option ℝ))
    (transmitterIndex receiverIndex : ℕ) (time : ℝ) : ℝ × ℝ :=
  match linkEndsTimes.getD transmitterIndex none,
      linkEndsTimes.getD receiverIndex none with
  | some transmissionTime, some receptionTime => (receptionTime, transmissionTime)
  | some _, none => (time, time)
  | none, _ => (time, time)

/-- Observable result of one single-leg solve: the returned light time, the updated
in/out state and time vectors, the calculator with its updated cache, the messages
printed to std::cerr by the convergence checks, and the final value of the loop
counter (the number of loop iterations executed). -/
structure SingleLegSolveOutput where
  lightTime : ℝ
  linkEndsStates : List (Option Vec6)
  linkEndsTimes : List (Option ℝ)
  calculator : LightTimeCalculator
  warnings : List LightTimeWarning
  iterations : ℤ

/-- Embedding of LightTimeCalculator::calculateLightTimeWithMultiLegLinkEndsStates
(lines 406-503). NaN entries of the state and time vectors are embedded as none.
The unconditional debug print of the final light time (line 500) is not modelled. -/
noncomputable def LightTimeCalculator.calculateLightTimeWithMultiLegLinkEndsStates
    (calculator : LightTimeCalculator) (tag : ScalarTag)
    (linkEndsStates : List (Option Vec6)) (linkEndsTimes : List (Option ℝ))
    (time : ℝ) (isTimeAtReception : Bool) (multiLegTransmitterIndex : ℕ)
    (fuel : ℕ) : Option (Except LightTimeError SingleLegSolveOutput) :=
  let multiLegReceiverIndex := multiLegTransmitterIndex + 1
  if linkEndsStates.length ≠ linkEndsTimes.length ∨
      multiLegReceiverIndex > linkEndsTimes.length - 1 then
    some (Except.error LightTimeError.inconsistentMultiLegInput)
  else
    let seed :=
      initialGuessTimes linkEndsTimes multiLegTransmitterIndex multiLegReceiverIndex time
    let receiverState := calculator.stateFunctionOfReceivingBody_ seed.1
    let transmitterState := calculator.stateFunctionOfTransmittingBody_ seed.2
    let calculator0 :=
      calculator.setTotalLightTimeCorrection transmitterState receiverState seed.2 seed.1
    let first := calculator0.calculateNewLightTimeEstimate receiverState transmitterState
    let s0 : LightTimeLoopState :=
      ⟨first.1, seed.1, seed.2, receiverState, transmitterState, first.2, 0,
        calculator.lightTimeConvergenceCriteria_.iterateCorrections_⟩
    match lightTimeLoop tag time isTimeAtReception fuel s0 [] with
    | none => none
    | some (Except.error e) => some (Except.error e)
    | some (Except.ok (sEnd, warnings)) =>
        some (Except.ok
          ⟨sEnd.previousLightTimeCalculation,
            (linkEndsStates.set multiLegReceiverIndex
              (some sEnd.receiverState)).set multiLegTransmitterIndex
              (some sEnd.transmitterState),
            (linkEndsTimes.set multiLegReceiverIndex
              (some sEnd.receptionTime)).set multiLegTransmitterIndex
              (some sEnd.transmissionTime),
            sEnd.calculator, warnings, sEnd.counter⟩)

/-- Embedding of class MultiLegLightTimeCalculator (lines 638-806). -/
structure MultiLegLightTimeCalculator where
  lightTimeCalculators_ : List LightTimeCalculator
  lightTimeConvergenceCriteria_ : LightTimeConvergenceCriteria

/-- Embedding of the member numberOfLinks_. -/
def MultiLegLightTimeCalculator.numberOfLinks (m : MultiLegLightTimeCalculator) : ℕ :=
  m.lightTimeCalculators_.length

/-- Embedding of the member numberOfLinkEnds_ (number of links + 1). -/
def MultiLegLightTimeCalculator.numberOfLinkEnds (m : MultiLegLightTimeCalculator) : ℕ :=
  m.lightTimeCalculators_.length + 1

/-- Embedding of the retransmission-delay normalization (lines 663-692). Modelled
from the spec: ObservationAncilliarySimulationSettings and its member
getAncilliaryDoubleVectorData are not among the provided sources; the spec
describes the settings as a key-value store yielding the delay vector, so a
supplied settings object is embedded by the vector it yields, and none embeds a
null settings pointer. Inserting 0 at the front and pushing 0 at the back embeds
the two padding operations of the source. -/
def normalizeRetransmissionDelays (numberOfLinkEnds : ℕ)
    (ancillarySettings : Option (List ℝ)) : Except LightTimeError (List ℝ) :=
  match ancillarySettings with
  | none => Except.ok (List.replicate numberOfLinkEnds 0)
  | some delays =>
    if delays.length = numberOfLinkEnds then Except.ok delays
    else if delays.length = numberOfLinkEnds - 2 then Except.ok (0 :: (delays ++ [0]))
    else Except.error (LightTimeError.invalidRetransmissionDelaysSize delays.length
      numberOfLinkEnds (numberOfLinkEnds - 2))

/-- State threaded through the two walks of the multi-leg solve: the calculators
with their updated caches, the shared link-end state and time vectors, the current
link-end time, the accumulated total light time, and the printed warnings. -/
structure MultiLegWalkState where
  lightTimeCalculators : List LightTimeCalculator
  linkEndsStates : List (Option Vec6)
  linkEndsTimes : List (Option ℝ)
  currentLinkEndTime : ℝ
  totalLightTime : ℝ
  warnings : List LightTimeWarning

/-- Embedding of the backward walk of the multi-leg solve (lines 723-736): legs
currentDownIndex - 1 for currentDownIndex descending from the reference index to 1;
the recursion argument is currentDownIndex. -/
noncomputable def moveBackwards (tag : ScalarTag) (delays : List ℝ) (fuel : ℕ) :
    ℕ → MultiLegWalkState → Option (Except LightTimeError MultiLegWalkState)
  | 0, s => some (Except.ok s)
  | currentDownIndex + 1, s =>
    match s.lightTimeCalculators.get? currentDownIndex with
    | none => some (Except.error LightTimeError.outOfRange)
    | some legCalculator =>
      match legCalculator.calculateLightTimeWithMultiLegLinkEndsStates tag
          s.linkEndsStates s.linkEndsTimes s.currentLinkEndTime true
          (2 * currentDownIndex) fuel with
      | none => none
      | some (Except.error e) => some (Except.error e)
      | some (Except.ok r) =>
        let currentLightTime := r.lightTime + delays.getD currentDownIndex 0
        moveBackwards tag delays fuel currentDownIndex
          ⟨s.lightTimeCalculators.set currentDownIndex r.calculator,
            r.linkEndsStates, r.linkEndsTimes,
            s.currentLinkEndTime - currentLightTime,
            s.totalLightTime + currentLightTime,
            s.warnings ++ r.warnings⟩

/-- Embedding of the forward walk of the multi-leg solve (lines 738-754): legs
currentUpIndex ascending from the reference index to numberOfLinkEnds - 2; the
recursion argument is the number of remaining legs. -/
noncomputable def moveForwards (tag : ScalarTag) (delays : List ℝ) (fuel : ℕ) :
    ℕ → ℕ → MultiLegWalkState → Option (Except LightTimeError MultiLegWalkState)
  | 0, _, s => some (Except.ok s)
  | remaining + 1, currentUpIndex, s =>
    match s.lightTimeCalculators.get? currentUpIndex with
    | none => some (Except.error LightTimeError.outOfRange)
    | some legCalculator =>
      match legCalculator.calculateLightTimeWithMultiLegLinkEndsStates tag
          s.linkEndsStates s.linkEndsTimes s.currentLinkEndTime false
          (2 * currentUpIndex) fuel with
      | none => none
      | some (Except.error e) => some (Except.error e)
      | some (Except.ok r) =>
        let currentLightTime := r.lightTime + delays.getD (currentUpIndex + 1) 0
        moveForwards tag delays fuel remaining (currentUpIndex + 1)
          ⟨s.lightTimeCalculators.set currentUpIndex r.calculator,
            r.linkEndsStates, r.linkEndsTimes,
            s.currentLinkEndTime + currentLightTime,
            s.totalLightTime + currentLightTime,
            s.warnings ++ r.warnings⟩

/-- Observable result of a multi-leg solve: the total light time, the ordered
per-leg time and state outputs, the leg calculators with their updated caches, and
the printed warnings. -/
structure MultiLegSolveOutput where
  totalLightTime : ℝ
  linkEndsTimesOutput : List (Option ℝ)
  linkEndsStatesOutput : List (Option Vec6)
  lightTimeCalculators : List LightTimeCalculator
  warnings : List LightTimeWarning

/-- Embedding of MultiLegLightTimeCalculator::calculateLightTimeWithLinkEndsStates
(lines 656-768). Modelled from the spec: getNWayLinkIndexFromLinkEndType is not
among the provided sources, so the reference link end is taken directly as the
index startLinkEndIndex that the C++ computes from linkEndAssociatedWithTime. -/
noncomputable def MultiLegLightTimeCalculator.calculateLightTimeWithLinkEndsStates
    (m : MultiLegLightTimeCalculator) (tag : ScalarTag) (time : ℝ)
    (startLinkEndIndex : ℕ) (ancillarySettings : Option (List ℝ)) (fuel : ℕ) :
    Option (Except LightTimeError MultiLegSolveOutput) :=
  match normalizeRetransmissionDelays m.numberOfLinkEnds ancillarySettings with
  | Except.error e => some (Except.error e)
  | Except.ok currentRetransmissionDelays =>
    if startLinkEndIndex ≠ 0 ∧ startLinkEndIndex ≠ m.numberOfLinkEnds - 1 ∧
        currentRetransmissionDelays.getD startLinkEndIndex 0 ≠ 0 then
      some (Except.error LightTimeError.nonzeroReferenceLinkEndDelay)
    else
      let startDelay := currentRetransmissionDelays.getD startLinkEndIndex 0
      let s0 : MultiLegWalkState :=
        ⟨m.lightTimeCalculators_,
          List.replicate (2 * m.numberOfLinks) none,
          List.replicate (2 * m.numberOfLinks) none,
          time - startDelay, startDelay, []⟩
      match moveBackwards tag currentRetransmissionDelays fuel startLinkEndIndex s0 with
      | none => none
      | some (Except.error e) => some (Except.error e)
      | some (Except.ok s1) =>
        match moveForwards tag currentRetransmissionDelays fuel
            (m.numberOfLinkEnds - 1 - startLinkEndIndex) startLinkEndIndex
            { s1 with currentLinkEndTime := time + startDelay } with
        | none => none
        | some (Except.error e) => some (Except.error e)
        | some (Except.ok s2) =>
          some (Except.ok ⟨s2.totalLightTime, s2.linkEndsTimes, s2.linkEndsStates,
            s2.lightTimeCalculators, s2.warnings⟩)

/-- Projection returning the light time of a successfully returning single-leg
solve, none on an error or a still-running loop. -/
def singleLegLightTimeOf
    (result : Option (Except LightTimeError SingleLegSolveOutput)) : Option ℝ :=
  match result with
  | some (Except.ok r) => some r.lightTime
  | _ => none

/-- Projection returning the total light time of a successfully returning
multi-leg solve, none on an error or a still-running loop. -/
def multiLegTotalLightTimeOf
    (result : Option (Except LightTimeError MultiLegSolveOutput)) : Option ℝ :=
  match result with
  | some (Except.ok r) => some r.totalLightTime
  | _ => none

/- Basic lemmas about the geometric and configuration helpers. -/

theorem positionDistance_eq_abs (a b : Vec6) (hy : a.y = b.y) (hz : a.z = b.z) :
    positionDistance a b = |a.x - b.x| := by
  unfold positionDistance
  rw [hy, hz, sub_self]
  norm_num [Real.sqrt_sq_eq_abs]

theorem getSpeedOfLight_pos : (0 : ℝ) < getSpeedOfLight := by
  unfold getSpeedOfLight; norm_num

theorem getSpeedOfLight_ne_zero : getSpeedOfLight ≠ 0 :=
  ne_of_gt getSpeedOfLight_pos

theorem getAbsoluteTolerance_some (tag : ScalarTag) (ic : Bool) (M : ℤ)
    (pol : LightTimeFailureHandling) (tol : ℝ) :
    LightTimeConvergenceCriteria.getAbsoluteTolerance ⟨ic, M, pol, some tol⟩ tag = tol :=
  rfl

theorem initialGuessTimes_cold (linkEndsTimes : List (Option ℝ)) (ti ri : ℕ) (t : ℝ)
    (h : linkEndsTimes.getD ti none = none ∨ linkEndsTimes.getD ri none = none) :
    initialGuessTimes linkEndsTimes ti ri t = (t, t) := by
  unfold initialGuessTimes
  rcases h with h | h
  · rw [h]
  · cases hti : linkEndsTimes.getD ti none <;> rw [h]

theorem initialGuessTimes_warm (linkEndsTimes : List (Option ℝ)) (ti ri : ℕ) (t a b : ℝ)
    (hti : linkEndsTimes.getD ti none = some a)
    (hri : linkEndsTimes.getD ri none = some b) :
    initialGuessTimes linkEndsTimes ti ri t = (b, a) := by
  unfold initialGuessTimes
  rw [hti, hri]

/- Branch lemmas for the convergence check. -/

theorem isConverged_below_flag_false (tag : ScalarTag)
    (cc : LightTimeConvergenceCriteria) (prev new : ℝ) (n : ℤ) (corr t : ℝ)
    (h : |new - prev| < cc.getAbsoluteTolerance tag) :
    isLightTimeSolutionConverged tag cc prev new n corr t false =
      Except.ok ⟨false, true, []⟩ := by
  unfold isLightTimeSolutionConverged
  rw [if_pos h]
  rfl

theorem isConverged_below_flag_true (tag : ScalarTag)
    (cc : LightTimeConvergenceCriteria) (prev new : ℝ) (n : ℤ) (corr t : ℝ)
    (h : |new - prev| < cc.getAbsoluteTolerance tag) :
    isLightTimeSolutionConverged tag cc prev new n corr t true =
      Except.ok ⟨true, true, []⟩ := by
  unfold isLightTimeSolutionConverged
  rw [if_pos h]
  rfl

theorem isConverged_notMax (tag : ScalarTag) (cc : LightTimeConvergenceCriteria)
    (prev new : ℝ) (n : ℤ) (corr t : ℝ) (flag : Bool)
    (h : ¬ |new - prev| < cc.getAbsoluteTolerance tag)
    (hn : ¬ n = cc.maximumNumberOfIterations_) :
    isLightTimeSolutionConverged tag cc prev new n corr t flag =
      Except.ok ⟨false, flag, []⟩ := by
  unfold isLightTimeSolutionConverged
  rw [if_neg h, if_neg hn]

theorem isConverged_max_accept (tag : ScalarTag) (cc : LightTimeConvergenceCriteria)
    (prev new : ℝ) (n : ℤ) (corr t : ℝ) (flag : Bool)
    (h : ¬ |new - prev| < cc.getAbsoluteTolerance tag)
    (hn : n = cc.maximumNumberOfIterations_)
    (hpol : cc.failureHandling_ = LightTimeFailureHandling.accept_without_warning) :
    isLightTimeSolutionConverged tag cc prev new n corr t flag =
      Except.ok ⟨true, flag, []⟩ := by
  unfold isLightTimeSolutionConverged
  rw [if_neg h, if_pos hn, hpol]

theorem isConverged_max_warn (tag : ScalarTag) (cc : LightTimeConvergenceCriteria)
    (prev new : ℝ) (n : ℤ) (corr t : ℝ) (flag : Bool)
    (h : ¬ |new - prev| < cc.getAbsoluteTolerance tag)
    (hn : n = cc.maximumNumberOfIterations_)
    (hpol : cc.failureHandling_ = LightTimeFailureHandling.print_warning_and_accept) :
    isLightTimeSolutionConverged tag cc prev new n corr t flag =
      Except.ok ⟨false, flag, [⟨|new - prev|, corr, t⟩]⟩ := by
  unfold isLightTimeSolutionConverged
  rw [if_neg h, if_pos hn, hpol]

theorem isConverged_max_throw (tag : ScalarTag) (cc : LightTimeConvergenceCriteria)
    (prev new : ℝ) (n : ℤ) (corr t : ℝ) (flag : Bool)
    (h : ¬ |new - prev| < cc.getAbsoluteTolerance tag)
    (hn : n = cc.maximumNumberOfIterations_)
    (hpol : cc.failureHandling_ = LightTimeFailureHandling.throw_exception) :
    isLightTimeSolutionConverged tag cc prev new n corr t flag =
      Except.error (LightTimeError.lightTimeUnconverged ⟨|new - prev|, corr, t⟩) := by
  unfold isLightTimeSolutionConverged
  rw [if_neg h, if_pos hn, hpol]

/- Unfolding lemmas for the fuel-indexed loop. -/

theorem lightTimeLoop_zero (tag : ScalarTag) (time : ℝ) (istr : Bool)
    (s : LightTimeLoopState) (w : List LightTimeWarning) :
    lightTimeLoop tag time istr 0 s w = none :=
  rfl

theorem lightTimeLoop_continue (tag : ScalarTag) (time : ℝ) (istr : Bool) (fuel : ℕ)
    (s s2 : LightTimeLoopState) (w w2 : List LightTimeWarning)
    (h : lightTimeIterationStep tag time istr s = LightTimeStepOutcome.continueLoop s2 w2) :
    lightTimeLoop tag time istr (fuel + 1) s w =
      lightTimeLoop tag time istr fuel s2 (w ++ w2) := by
  rw [lightTimeLoop, h]

theorem lightTimeLoop_exit (tag : ScalarTag) (time : ℝ) (istr : Bool) (fuel : ℕ)
    (s s2 : LightTimeLoopState) (w w2 : List LightTimeWarning)
    (h : lightTimeIterationStep tag time istr s = LightTimeStepOutcome.exitLoop s2 w2) :
    lightTimeLoop tag time istr (fuel + 1) s w = some (Except.ok (s2, w ++ w2)) := by
  rw [lightTimeLoop, h]

theorem lightTimeLoop_thrown (tag : ScalarTag) (time : ℝ) (istr : Bool) (fuel : ℕ)
    (s : LightTimeLoopState) (e : LightTimeError) (w : List LightTimeWarning)
    (h : lightTimeIterationStep tag time istr s = LightTimeStepOutcome.thrown e) :
    lightTimeLoop tag time istr (fuel + 1) s w = some (Except.error e) := by
  rw [lightTimeLoop, h]

/- Evaluation of solves whose state providers are constant in time and whose
correction providers sum to a fixed value. -/

/-- Calculator whose two state providers are constant in time. -/
noncomputable def staticCalc (sT sR : Vec6) (cfs : List LightTimeCorrectionFunction)
    (cc : LightTimeConvergenceCriteria) (ideal corr : ℝ) : LightTimeCalculator :=
  ⟨fun _ => sT, fun _ => sR, cfs, cc, ideal, corr⟩

theorem staticCalc_txFun (sT sR : Vec6) (cfs : List LightTimeCorrectionFunction)
    (cc : LightTimeConvergenceCriteria) (ideal corr : ℝ) :
    (staticCalc sT sR cfs cc ideal corr).stateFunctionOfTransmittingBody_ =
      fun _ => sT := rfl

theorem staticCalc_rxFun (sT sR : Vec6) (cfs : List LightTimeCorrectionFunction)
    (cc : LightTimeConvergenceCriteria) (ideal corr : ℝ) :
    (staticCalc sT sR cfs cc ideal corr).stateFunctionOfReceivingBody_ =
      fun _ => sR := rfl

theorem staticCalc_criteria (sT sR : Vec6) (cfs : List LightTimeCorrectionFunction)
    (cc : LightTimeConvergenceCriteria) (ideal corr : ℝ) :
    (staticCalc sT sR cfs cc ideal corr).lightTimeConvergenceCriteria_ = cc := rfl

theorem staticCalc_corr (sT sR : Vec6) (cfs : List LightTimeCorrectionFunction)
    (cc : LightTimeConvergenceCriteria) (ideal corr : ℝ) :
    (staticCalc sT sR cfs cc ideal corr).currentCorrection_ = corr := rfl

theorem staticCalc_ideal (sT sR : Vec6) (cfs : List LightTimeCorrectionFunction)
    (cc : LightTimeConvergenceCriteria) (ideal corr : ℝ) :
    (staticCalc sT sR cfs cc ideal corr).currentIdealLightTime_ = ideal := rfl

theorem staticCalc_setTotal (sT sR : Vec6) (cfs : List LightTimeCorrectionFunction)
    (cc : LightTimeConvergenceCriteria) (ideal corr S : ℝ) (a b : Vec6) (t1 t2 : ℝ)
    (hcs : ∀ a b t1 t2,
      List.foldl (fun total f => total + f a b t1 t2) (0 : ℝ) cfs = S) :
    (staticCalc sT sR cfs cc ideal corr).setTotalLightTimeCorrection a b t1 t2 =
      staticCalc sT sR cfs cc ideal S := by
  simp [staticCalc, LightTimeCalculator.setTotalLightTimeCorrection, hcs]

theorem staticCalc_newEstimate (sT sR : Vec6) (cfs : List LightTimeCorrectionFunction)
    (cc : LightTimeConvergenceCriteria) (ideal corr : ℝ) (a b : Vec6) :
    (staticCalc sT sR cfs cc ideal corr).calculateNewLightTimeEstimate a b =
      (staticCalc sT sR cfs cc (positionDistance a b / getSpeedOfLight) corr,
        positionDistance a b / getSpeedOfLight + corr) := by
  simp [staticCalc, LightTimeCalculator.calculateNewLightTimeEstimate]

/-- One loop iteration from a settled static state: the estimate change is below
tolerance, so the iteration exits when the correction-refresh flag is already set
and otherwise forces one more iteration with the flag set. -/
theorem staticStep (tag : ScalarTag) (time : ℝ) (istr : Bool) (sT sR : Vec6)
    (cfs : List LightTimeCorrectionFunction) (cc : LightTimeConvergenceCriteria)
    (S ideal prev rt tt : ℝ) (n : ℤ) (flag : Bool)
    (hcs : ∀ a b t1 t2,
      List.foldl (fun total f => total + f a b t1 t2) (0 : ℝ) cfs = S)
    (htol : |positionDistance sR sT / getSpeedOfLight + S - prev| <
      cc.getAbsoluteTolerance tag) :
    lightTimeIterationStep tag time istr
        ⟨staticCalc sT sR cfs cc ideal S, rt, tt, sR, sT, prev, n, flag⟩ =
      (if flag then LightTimeStepOutcome.exitLoop else LightTimeStepOutcome.continueLoop)
        ⟨staticCalc sT sR cfs cc (positionDistance sR sT / getSpeedOfLight) S,
          if istr then time else time + prev, if istr then time - prev else time,
          sR, sT, positionDistance sR sT / getSpeedOfLight + S, n + 1, true⟩ [] := by
  have hset : ∀ a b t1 t2,
      (staticCalc sT sR cfs cc ideal S).setTotalLightTimeCorrection a b t1 t2 =
        staticCalc sT sR cfs cc ideal S :=
    fun a b t1 t2 => staticCalc_setTotal sT sR cfs cc ideal S S a b t1 t2 hcs
  cases flag
  · cases istr <;>
    · simp only [lightTimeIterationStep, hset, staticCalc_txFun, staticCalc_rxFun,
        staticCalc_criteria, staticCalc_corr, staticCalc_newEstimate,
        Bool.false_eq_true, eq_self_iff_true, if_false, if_true]
      rw [isConverged_below_flag_false _ _ _ _ _ _ _ htol]
      simp
  · cases istr <;>
    · simp only [lightTimeIterationStep, hset, staticCalc_txFun, staticCalc_rxFun,
        staticCalc_criteria, staticCalc_corr, staticCalc_newEstimate,
        Bool.false_eq_true, eq_self_iff_true, if_false, if_true]
      rw [isConverged_below_flag_true _ _ _ _ _ _ _ htol]
      simp

/-- Complete evaluation of a cold-started single-leg solve with constant state
providers and a constant total correction S: the loop runs exactly two
iterations (the second being the forced correction-refresh guard iteration) and
returns the ideal light time plus S. -/
theorem staticSolve_eval (tag : ScalarTag) (sT sR : Vec6)
    (cfs : List LightTimeCorrectionFunction) (cc : LightTimeConvergenceCriteria)
    (S ideal corr : ℝ) (states : List (Option Vec6)) (times : List (Option ℝ))
    (t : ℝ) (istr : Bool) (ti : ℕ) (fuel : ℕ)
    (hcs : ∀ a b t1 t2,
      List.foldl (fun total f => total + f a b t1 t2) (0 : ℝ) cfs = S)
    (hic : cc.iterateCorrections_ = false)
    (htol : 0 < cc.getAbsoluteTolerance tag)
    (hlen : states.length = times.length)
    (hri : ti + 1 ≤ times.length - 1)
    (hcold : times.getD ti none = none ∨ times.getD (ti + 1) none = none) :
    (staticCalc sT sR cfs cc ideal corr).calculateLightTimeWithMultiLegLinkEndsStates
        tag states times t istr ti (fuel + 1 + 1) =
      some (Except.ok
        ⟨positionDistance sR sT / getSpeedOfLight + S,
          (states.set (ti + 1) (some sR)).set ti (some sT),
          (times.set (ti + 1) (some (if istr then t
              else t + (positionDistance sR sT / getSpeedOfLight + S)))).set ti
            (some (if istr then t - (positionDistance sR sT / getSpeedOfLight + S)
              else t)),
          staticCalc sT sR cfs cc (positionDistance sR sT / getSpeedOfLight) S,
          [], 2⟩) := by
  set D := positionDistance sR sT / getSpeedOfLight with hD
  have hguard : ¬(states.length ≠ times.length ∨ ti + 1 > times.length - 1) := by
    push_neg
    exact ⟨hlen, hri⟩
  have hzero : |D + S - (D + S)| < cc.getAbsoluteTolerance tag := by
    simpa using htol
  have hset : ∀ a b t1 t2,
      (staticCalc sT sR cfs cc ideal corr).setTotalLightTimeCorrection a b t1 t2 =
        staticCalc sT sR cfs cc ideal S :=
    fun a b t1 t2 => staticCalc_setTotal sT sR cfs cc ideal corr S a b t1 t2 hcs
  have h1 : lightTimeIterationStep tag t istr
      ⟨staticCalc sT sR cfs cc D S, t, t, sR, sT, D + S, 0, false⟩ =
      LightTimeStepOutcome.continueLoop
        ⟨staticCalc sT sR cfs cc D S, if istr then t else t + (D + S),
          if istr then t - (D + S) else t, sR, sT, D + S, 1, true⟩ [] := by
    have h := staticStep tag t istr sT sR cfs cc S D (D + S) t t 0 false hcs hzero
    rw [← hD] at h
    simpa using h
  have h2 : lightTimeIterationStep tag t istr
      ⟨staticCalc sT sR cfs cc D S, if istr then t else t + (D + S),
        if istr then t - (D + S) else t, sR, sT, D + S, 1, true⟩ =
      LightTimeStepOutcome.exitLoop
        ⟨staticCalc sT sR cfs cc D S, if istr then t else t + (D + S),
          if istr then t - (D + S) else t, sR, sT, D + S, 2, true⟩ [] := by
    have h := staticStep tag t istr sT sR cfs cc S D (D + S)
      (if istr then t else t + (D + S)) (if istr then t - (D + S) else t) 1 true
      hcs hzero
    rw [← hD] at h
    simpa using h
  have hloop : lightTimeLoop tag t istr (fuel + 1 + 1)
      ⟨staticCalc sT sR cfs cc D S, t, t, sR, sT, D + S, 0, false⟩ [] =
      some (Except.ok
        (⟨staticCalc sT sR cfs cc D S, if istr then t else t + (D + S),
          if istr then t - (D + S) else t, sR, sT, D + S, 2, true⟩, [])) := by
    rw [lightTimeLoop_continue _ _ _ _ _ _ _ _ h1, lightTimeLoop_exit _ _ _ _ _ _ _ _ h2]
    simp
  simp only [LightTimeCalculator.calculateLightTimeWithMultiLegLinkEndsStates]
  rw [if_neg hguard, initialGuessTimes_cold _ _ _ _ hcold]
  simp only [staticCalc_rxFun, staticCalc_txFun, staticCalc_criteria, hset, hic,
    staticCalc_newEstimate]
  rw [← hD]
  rw [hloop]

/-- Projection returning the final loop-counter value of a successfully returning
single-leg solve. -/
def singleLegIterationsOf
    (result : Option (Except LightTimeError SingleLegSolveOutput)) : Option ℤ :=
  match result with
  | some (Except.ok r) => some r.iterations
  | _ => none

theorem foldl_apply_eq_sum (cfs : List LightTimeCorrectionFunction) (a b : Vec6)
    (t1 t2 : ℝ) (init : ℝ) :
    cfs.foldl (fun total f => total + f a b t1 t2) init =
      init + (cfs.map (fun f => f a b t1 t2)).sum := by
  induction cfs generalizing init with
  | nil => simp
  | cons f fs ih => simp [ih, add_assoc]

/-- C9: getAbsoluteTolerance returns the explicitly configured tolerance whenever
one was set (a non-NaN value, embedded as some), and otherwise returns the builtin
default tolerance associated with the scalar type; the call computes its result
from the configuration alone, so it has no side effects. -/
theorem C9_getAbsoluteTolerance_spec (cc : LightTimeConvergenceCriteria)
    (tag : ScalarTag) :
    (∀ tol, cc.absoluteTolerance_ = some tol → cc.getAbsoluteTolerance tag = tol) ∧
    (cc.absoluteTolerance_ = none →
      cc.getAbsoluteTolerance tag = getDefaultLightTimeTolerance tag) := by
  constructor
  · intro tol h
    unfold LightTimeConvergenceCriteria.getAbsoluteTolerance
    rw [h]
  · intro h
    unfold LightTimeConvergenceCriteria.getAbsoluteTolerance
    rw [h]

/-- Witness for C9 at a concrete configuration, for both branches. -/
theorem C9_getAbsoluteTolerance_spec_witness :
    LightTimeConvergenceCriteria.getAbsoluteTolerance
        ⟨false, 50, LightTimeFailureHandling.accept_without_warning, some 3⟩
        ScalarTag.doubleTag = 3 ∧
    LightTimeConvergenceCriteria.getAbsoluteTolerance
        ⟨false, 50, LightTimeFailureHandling.accept_without_warning, none⟩
        ScalarTag.doubleTag = getDefaultLightTimeTolerance ScalarTag.doubleTag :=
  ⟨(C9_getAbsoluteTolerance_spec _ _).1 3 rfl,
    (C9_getAbsoluteTolerance_spec _ _).2 rfl⟩

/-- C7: the total correction stored by setTotalLightTimeCorrection equals the plain
sum of the values returned by all registered correction providers, with no
cross-terms; consequently, a solve with two constant-valued correction providers
returning a and b converges to the ideal (uncorrected) light time plus a + b,
and caches that ideal value. -/
theorem C7_correction_summation :
    (∀ (calculator : LightTimeCalculator) (a b : Vec6) (t1 t2 : ℝ),
      (calculator.setTotalLightTimeCorrection a b t1 t2).currentCorrection_ =
        (calculator.correctionFunctions_.map (fun f => f a b t1 t2)).sum) ∧
    (∀ (tag : ScalarTag) (sT sR : Vec6) (a b : ℝ) (M : ℤ)
        (pol : LightTimeFailureHandling) (ideal corr t tol : ℝ) (istr : Bool)
        (fuel : ℕ), 0 < tol →
      (staticCalc sT sR [fun _ _ _ _ => a, fun _ _ _ _ => b]
          ⟨false, M, pol, some tol⟩ ideal
          corr).calculateLightTimeWithMultiLegLinkEndsStates tag
          [none, none] [none, none] t istr 0 (fuel + 1 + 1) =
        some (Except.ok
          ⟨positionDistance sR sT / getSpeedOfLight + (a + b),
            [some sT, some sR],
            [some (if istr then
                t - (positionDistance sR sT / getSpeedOfLight + (a + b)) else t),
              some (if istr then t
                else t + (positionDistance sR sT / getSpeedOfLight + (a + b)))],
            staticCalc sT sR [fun _ _ _ _ => a, fun _ _ _ _ => b]
              ⟨false, M, pol, some tol⟩
              (positionDistance sR sT / getSpeedOfLight) (a + b),
            [], 2⟩)) := by
  constructor
  · intro calculator a b t1 t2
    unfold LightTimeCalculator.setTotalLightTimeCorrection
    simp [foldl_apply_eq_sum]
  · intro tag sT sR a b M pol ideal corr t tol istr fuel htol
    have hcs : ∀ (a2 b2 : Vec6) (t1 t2 : ℝ),
        List.foldl (fun total f => total + f a2 b2 t1 t2) (0 : ℝ)
          [fun _ _ _ _ => a, fun _ _ _ _ => b] = a + b := by
      intro a2 b2 t1 t2
      simp [List.foldl]
    have h := staticSolve_eval tag sT sR [fun _ _ _ _ => a, fun _ _ _ _ => b]
      ⟨false, M, pol, some tol⟩ (a + b) ideal corr [none, none] [none, none]
      t istr 0 fuel hcs rfl (by rw [getAbsoluteTolerance_some]; exact htol)
      rfl (by norm_num) (Or.inl rfl)
    rw [h]
    rfl

/-- Witness for C7 at a concrete static configuration with corrections 5 and 7. -/
theorem C7_correction_summation_witness :
    (0 : ℝ) < 1 ∧
    (staticCalc ⟨0, 0, 0, 0, 0, 0⟩ ⟨299792458, 0, 0, 0, 0, 0⟩
        [fun _ _ _ _ => 5, fun _ _ _ _ => 7]
        ⟨false, 50, LightTimeFailureHandling.accept_without_warning, some 1⟩ 0
        0).calculateLightTimeWithMultiLegLinkEndsStates ScalarTag.doubleTag
        [none, none] [none, none] 0 true 0 (0 + 1 + 1) =
      some (Except.ok
        ⟨positionDistance ⟨299792458, 0, 0, 0, 0, 0⟩ ⟨0, 0, 0, 0, 0, 0⟩ /
            getSpeedOfLight + (5 + 7),
          [some ⟨0, 0, 0, 0, 0, 0⟩, some ⟨299792458, 0, 0, 0, 0, 0⟩],
          [some (if true then
              (0 : ℝ) - (positionDistance ⟨299792458, 0, 0, 0, 0, 0⟩
                ⟨0, 0, 0, 0, 0, 0⟩ / getSpeedOfLight + (5 + 7)) else 0),
            some (if true then (0 : ℝ)
              else 0 + (positionDistance ⟨299792458, 0, 0, 0, 0, 0⟩
                ⟨0, 0, 0, 0, 0, 0⟩ / getSpeedOfLight + (5 + 7)))],
          staticCalc ⟨0, 0, 0, 0, 0, 0⟩ ⟨299792458, 0, 0, 0, 0, 0⟩
            [fun _ _ _ _ => 5, fun _ _ _ _ => 7]
            ⟨false, 50, LightTimeFailureHandling.accept_without_warning, some 1⟩
            (positionDistance ⟨299792458, 0, 0, 0, 0, 0⟩ ⟨0, 0, 0, 0, 0, 0⟩ /
              getSpeedOfLight) (5 + 7),
          [], 2⟩) :=
  ⟨by norm_num,
    (C7_correction_summation).2 ScalarTag.doubleTag ⟨0, 0, 0, 0, 0, 0⟩
      ⟨299792458, 0, 0, 0, 0, 0⟩ 5 7 50
      LightTimeFailureHandling.accept_without_warning 0 0 0 1 true 0 (by norm_num)⟩

/-- C8: for constant state providers (two non-moving link ends) and an empty
correction list, the single-leg solve converges and returns exactly the Euclidean
position distance divided by the propagation speed (hence a value within any
positive configured tolerance of it). -/
theorem C8_static_vacuum (tag : ScalarTag) (sT sR : Vec6) (M : ℤ)
    (pol : LightTimeFailureHandling) (ideal corr t tol : ℝ) (istr : Bool) (fuel : ℕ)
    (htol : 0 < tol) :
    singleLegLightTimeOf
        ((staticCalc sT sR [] ⟨false, M, pol, some tol⟩ ideal
          corr).calculateLightTimeWithMultiLegLinkEndsStates tag
          [none, none] [none, none] t istr 0 (fuel + 1 + 1)) =
      some (positionDistance sR sT / getSpeedOfLight) := by
  have h := staticSolve_eval tag sT sR [] ⟨false, M, pol, some tol⟩ 0 ideal corr
    [none, none] [none, none] t istr 0 fuel (by intro a b t1 t2; simp) rfl
    (by rw [getAbsoluteTolerance_some]; exact htol) rfl (by norm_num) (Or.inl rfl)
  rw [h]
  simp [singleLegLightTimeOf]

/-- Witness for C8: two link ends one light-second apart on the x axis give light
time 1. -/
theorem C8_static_vacuum_witness :
    (0 : ℝ) < 1 ∧
    singleLegLightTimeOf
        ((staticCalc ⟨0, 0, 0, 0, 0, 0⟩ ⟨299792458, 0, 0, 0, 0, 0⟩ []
          ⟨false, 50, LightTimeFailureHandling.accept_without_warning, some 1⟩ 0
          0).calculateLightTimeWithMultiLegLinkEndsStates ScalarTag.doubleTag
          [none, none] [none, none] 0 true 0 (0 + 1 + 1)) =
      some (positionDistance ⟨299792458, 0, 0, 0, 0, 0⟩ ⟨0, 0, 0, 0, 0, 0⟩ /
        getSpeedOfLight) :=
  ⟨by norm_num,
    C8_static_vacuum ScalarTag.doubleTag ⟨0, 0, 0, 0, 0, 0⟩
      ⟨299792458, 0, 0, 0, 0, 0⟩ 50 LightTimeFailureHandling.accept_without_warning
      0 0 0 1 true 0 (by norm_num)⟩

/-- Helper for C3: in any loop iteration entered with the correction-refresh flag
set, the iteration recomputes the total correction from the registered providers
at the incoming states and times before the new estimate is formed, and the
outgoing loop state carries that refreshed correction. -/
theorem stepFlagTrue_refresh (tag : ScalarTag) (time : ℝ) (istr : Bool)
    (s s2 : LightTimeLoopState) (w : List LightTimeWarning)
    (hflag : s.updateLightTimeCorrections = true)
    (hout : lightTimeIterationStep tag time istr s =
        LightTimeStepOutcome.continueLoop s2 w ∨
      lightTimeIterationStep tag time istr s = LightTimeStepOutcome.exitLoop s2 w) :
    s2.calculator.currentCorrection_ =
      List.foldl (fun total f => total + f s.transmitterState s.receiverState
        s.transmissionTime s.receptionTime) 0 s.calculator.correctionFunctions_ := by
  rcases hout with hout | hout <;>
  · simp only [lightTimeIterationStep, hflag, if_true, eq_self_iff_true] at hout
    split at hout
    · cases hout
    · split at hout <;> cases hout <;>
        simp [LightTimeCalculator.setTotalLightTimeCorrection,
          LightTimeCalculator.calculateNewLightTimeEstimate]

/-- C3: with iterateCorrectionsEachStep unset (refresh flag false), a convergence
check whose estimate change is below tolerance does not accept but forces one more
iteration with the refresh flag set; with the flag set and the change below
tolerance it accepts; an iteration entered with the flag set refreshes the total
correction from the registered providers at the incoming states and times; and
with an empty correction list a cold static solve still executes that guard
iteration once, returning after exactly 2 loop iterations. -/
theorem C3_guard_iteration :
    (∀ (tag : ScalarTag) (cc : LightTimeConvergenceCriteria) (prev new : ℝ)
        (n : ℤ) (corr t : ℝ), |new - prev| < cc.getAbsoluteTolerance tag →
      isLightTimeSolutionConverged tag cc prev new n corr t false =
        Except.ok ⟨false, true, []⟩) ∧
    (∀ (tag : ScalarTag) (cc : LightTimeConvergenceCriteria) (prev new : ℝ)
        (n : ℤ) (corr t : ℝ), |new - prev| < cc.getAbsoluteTolerance tag →
      isLightTimeSolutionConverged tag cc prev new n corr t true =
        Except.ok ⟨true, true, []⟩) ∧
    (∀ (tag : ScalarTag) (time : ℝ) (istr : Bool) (s s2 : LightTimeLoopState)
        (w : List LightTimeWarning), s.updateLightTimeCorrections = true →
      (lightTimeIterationStep tag time istr s =
          LightTimeStepOutcome.continueLoop s2 w ∨
        lightTimeIterationStep tag time istr s =
          LightTimeStepOutcome.exitLoop s2 w) →
      s2.calculator.currentCorrection_ =
        List.foldl (fun total f => total + f s.transmitterState s.receiverState
          s.transmissionTime s.receptionTime) 0
          s.calculator.correctionFunctions_) ∧
    (∀ (tag : ScalarTag) (sT sR : Vec6) (M : ℤ) (pol : LightTimeFailureHandling)
        (ideal corr t tol : ℝ) (istr : Bool) (fuel : ℕ), 0 < tol →
      singleLegIterationsOf
          ((staticCalc sT sR [] ⟨false, M, pol, some tol⟩ ideal
            corr).calculateLightTimeWithMultiLegLinkEndsStates tag
            [none, none] [none, none] t istr 0 (fuel + 1 + 1)) = some 2) := by
  refine ⟨?_, ?_, ?_, ?_⟩
  · intro tag cc prev new n corr t h
    exact isConverged_below_flag_false tag cc prev new n corr t h
  · intro tag cc prev new n corr t h
    exact isConverged_below_flag_true tag cc prev new n corr t h
  · intro tag time istr s s2 w hflag hout
    exact stepFlagTrue_refresh tag time istr s s2 w hflag hout
  · intro tag sT sR M pol ideal corr t tol istr fuel htol
    have h := staticSolve_eval tag sT sR [] ⟨false, M, pol, some tol⟩ 0 ideal corr
      [none, none] [none, none] t istr 0 fuel (by intro a b t1 t2; simp) rfl
      (by rw [getAbsoluteTolerance_some]; exact htol) rfl (by norm_num) (Or.inl rfl)
    rw [h]
    rfl

/-- Witness for C3: each conjunct applied at a concrete input (all-zero states,
tolerance 1). -/
theorem C3_guard_iteration_witness :
    isLightTimeSolutionConverged ScalarTag.doubleTag
        ⟨false, 50, LightTimeFailureHandling.accept_without_warning, some 1⟩
        0 0 0 0 0 false = Except.ok ⟨false, true, []⟩ ∧
    isLightTimeSolutionConverged ScalarTag.doubleTag
        ⟨false, 50, LightTimeFailureHandling.accept_without_warning, some 1⟩
        0 0 0 0 0 true = Except.ok ⟨true, true, []⟩ ∧
    (staticCalc ⟨0, 0, 0, 0, 0, 0⟩ ⟨0, 0, 0, 0, 0, 0⟩ []
        ⟨false, 50, LightTimeFailureHandling.accept_without_warning, some 1⟩ 0
        0).currentCorrection_ =
      List.foldl (fun total f => total + f ⟨0, 0, 0, 0, 0, 0⟩ ⟨0, 0, 0, 0, 0, 0⟩
        0 0) 0 ([] : List LightTimeCorrectionFunction) ∧
    singleLegIterationsOf
        ((staticCalc ⟨0, 0, 0, 0, 0, 0⟩ ⟨0, 0, 0, 0, 0, 0⟩ []
          ⟨false, 50, LightTimeFailureHandling.accept_without_warning, some 1⟩ 0
          0).calculateLightTimeWithMultiLegLinkEndsStates ScalarTag.doubleTag
          [none, none] [none, none] 0 true 0 (0 + 1 + 1)) = some 2 := by
  have hd : positionDistance ⟨0, 0, 0, 0, 0, 0⟩ ⟨0, 0, 0, 0, 0, 0⟩ = 0 := by
    rw [positionDistance_eq_abs ⟨0, 0, 0, 0, 0, 0⟩ ⟨0, 0, 0, 0, 0, 0⟩ rfl rfl]
    norm_num
  have hstep : lightTimeIterationStep ScalarTag.doubleTag 0 true
      ⟨staticCalc ⟨0, 0, 0, 0, 0, 0⟩ ⟨0, 0, 0, 0, 0, 0⟩ []
        ⟨false, 50, LightTimeFailureHandling.accept_without_warning, some 1⟩ 0 0,
        0, 0, ⟨0, 0, 0, 0, 0, 0⟩, ⟨0, 0, 0, 0, 0, 0⟩, 0, 0, true⟩ =
      LightTimeStepOutcome.exitLoop
        ⟨staticCalc ⟨0, 0, 0, 0, 0, 0⟩ ⟨0, 0, 0, 0, 0, 0⟩ []
          ⟨false, 50, LightTimeFailureHandling.accept_without_warning, some 1⟩ 0 0,
          0, 0, ⟨0, 0, 0, 0, 0, 0⟩, ⟨0, 0, 0, 0, 0, 0⟩, 0, 1, true⟩ [] := by
    have h := staticStep ScalarTag.doubleTag 0 true ⟨0, 0, 0, 0, 0, 0⟩
      ⟨0, 0, 0, 0, 0, 0⟩ []
      ⟨false, 50, LightTimeFailureHandling.accept_without_warning, some 1⟩ 0 0 0
      0 0 0 true (by intro a b t1 t2; simp)
      (by rw [getAbsoluteTolerance_some, hd]; norm_num)
    rw [hd] at h
    simpa using h
  refine ⟨C3_guard_iteration.1 ScalarTag.doubleTag _ 0 0 0 0 0 (by
      rw [getAbsoluteTolerance_some]; norm_num),
    C3_guard_iteration.2.1 ScalarTag.doubleTag _ 0 0 0 0 0 (by
      rw [getAbsoluteTolerance_some]; norm_num),
    C3_guard_iteration.2.2.1 ScalarTag.doubleTag 0 true
      ⟨staticCalc ⟨0, 0, 0, 0, 0, 0⟩ ⟨0, 0, 0, 0, 0, 0⟩ []
        ⟨false, 50, LightTimeFailureHandling.accept_without_warning, some 1⟩ 0 0,
        0, 0, ⟨0, 0, 0, 0, 0, 0⟩, ⟨0, 0, 0, 0, 0, 0⟩, 0, 0, true⟩
      ⟨staticCalc ⟨0, 0, 0, 0, 0, 0⟩ ⟨0, 0, 0, 0, 0, 0⟩ []
        ⟨false, 50, LightTimeFailureHandling.accept_without_warning, some 1⟩ 0 0,
        0, 0, ⟨0, 0, 0, 0, 0, 0⟩, ⟨0, 0, 0, 0, 0, 0⟩, 0, 1, true⟩ [] rfl
      (Or.inr hstep),
    C3_guard_iteration.2.2.2 ScalarTag.doubleTag ⟨0, 0, 0, 0, 0, 0⟩
      ⟨0, 0, 0, 0, 0, 0⟩ 50 LightTimeFailureHandling.accept_without_warning 0 0 0
      1 true 0 (by norm_num)⟩

/-- Helper for C10: every loop iteration leaves the estimate it stores equal to
the sum of the two cache fields of its outgoing calculator, because the estimate
is produced by calculateNewLightTimeEstimate, which writes the ideal cache and
adds the correction cache, and nothing later in the iteration touches either. -/
theorem step_cache_sum (tag : ScalarTag) (time : ℝ) (istr : Bool)
    (s s2 : LightTimeLoopState) (w : List LightTimeWarning)
    (hout : lightTimeIterationStep tag time istr s =
        LightTimeStepOutcome.continueLoop s2 w ∨
      lightTimeIterationStep tag time istr s = LightTimeStepOutcome.exitLoop s2 w) :
    s2.previousLightTimeCalculation =
      s2.calculator.currentIdealLightTime_ + s2.calculator.currentCorrection_ := by
  rcases hout with hout | hout <;>
  · cases hflag : s.updateLightTimeCorrections <;>
    · simp only [lightTimeIterationStep, hflag, if_true, if_false, Bool.false_eq_true,
        eq_self_iff_true] at hout
      split at hout
      · cases hout
      · split at hout <;> cases hout <;>
          simp [LightTimeCalculator.setTotalLightTimeCorrection,
            LightTimeCalculator.calculateNewLightTimeEstimate]

/-- Helper for C10: the loop invariant transported to the loop result. -/
theorem loop_cache_sum (tag : ScalarTag) (time : ℝ) (istr : Bool) : ∀ (fuel : ℕ)
    (s : LightTimeLoopState) (w : List LightTimeWarning) (s2 : LightTimeLoopState)
    (w2 : List LightTimeWarning),
    lightTimeLoop tag time istr fuel s w = some (Except.ok (s2, w2)) →
    s2.previousLightTimeCalculation =
      s2.calculator.currentIdealLightTime_ + s2.calculator.currentCorrection_ := by
  intro fuel
  induction fuel with
  | zero =>
    intro s w s2 w2 h
    exact absurd h (by simp [lightTimeLoop])
  | succ m ih =>
    intro s w s2 w2 h
    rw [lightTimeLoop] at h
    cases hstep : lightTimeIterationStep tag time istr s with
    | thrown e =>
      rw [hstep] at h
      simp at h
    | exitLoop s3 w3 =>
      rw [hstep] at h
      simp only [] at h
      have h2 : s3 = s2 := by
        have := Option.some.inj h
        have := Except.ok.inj this
        exact congrArg Prod.fst this
      rw [← h2]
      exact step_cache_sum tag time istr s s3 w3 (Or.inr hstep)
    | continueLoop s3 w3 =>
      rw [hstep] at h
      exact ih s3 (w ++ w3) s2 w2 h

/-- C10: whenever a single-leg solve returns normally, the returned light time
equals exactly the sum of the cached ideal light time and the cached total
correction read from the returned calculator immediately after the call. -/
theorem C10_return_equals_cache_sum (tag : ScalarTag)
    (calculator : LightTimeCalculator) (states : List (Option Vec6))
    (times : List (Option ℝ)) (t : ℝ) (istr : Bool) (ti fuel : ℕ)
    (r : SingleLegSolveOutput)
    (h : calculator.calculateLightTimeWithMultiLegLinkEndsStates tag states times
      t istr ti fuel = some (Except.ok r)) :
    r.lightTime =
      r.calculator.currentIdealLightTime_ + r.calculator.currentCorrection_ := by
  simp only [LightTimeCalculator.calculateLightTimeWithMultiLegLinkEndsStates] at h
  split at h
  · simp at h
  · split at h
    · simp at h
    · simp at h
    · rename_i sEnd warnings heq
      injection h with h1
      injection h1 with h2
      rw [← h2]
      exact loop_cache_sum tag t istr fuel _ [] sEnd warnings heq

/-- Witness for C10 at a concrete static solve. -/
theorem C10_return_equals_cache_sum_witness :
    (⟨positionDistance ⟨299792458, 0, 0, 0, 0, 0⟩ ⟨0, 0, 0, 0, 0, 0⟩ /
          getSpeedOfLight + 0,
        [some ⟨0, 0, 0, 0, 0, 0⟩, some ⟨299792458, 0, 0, 0, 0, 0⟩],
        [some (if true then
            (0 : ℝ) - (positionDistance ⟨299792458, 0, 0, 0, 0, 0⟩
              ⟨0, 0, 0, 0, 0, 0⟩ / getSpeedOfLight + 0) else 0),
          some (if true then (0 : ℝ)
            else 0 + (positionDistance ⟨299792458, 0, 0, 0, 0, 0⟩
              ⟨0, 0, 0, 0, 0, 0⟩ / getSpeedOfLight + 0))],
        staticCalc ⟨0, 0, 0, 0, 0, 0⟩ ⟨299792458, 0, 0, 0, 0, 0⟩ []
          ⟨false, 50, LightTimeFailureHandling.accept_without_warning, some 1⟩
          (positionDistance ⟨299792458, 0, 0, 0, 0, 0⟩ ⟨0, 0, 0, 0, 0, 0⟩ /
            getSpeedOfLight) 0,
        [], 2⟩ : SingleLegSolveOutput).lightTime =
      (staticCalc ⟨0, 0, 0, 0, 0, 0⟩ ⟨299792458, 0, 0, 0, 0, 0⟩ []
        ⟨false, 50, LightTimeFailureHandling.accept_without_warning, some 1⟩
        (positionDistance ⟨299792458, 0, 0, 0, 0, 0⟩ ⟨0, 0, 0, 0, 0, 0⟩ /
          getSpeedOfLight) 0).currentIdealLightTime_ +
      (staticCalc ⟨0, 0, 0, 0, 0, 0⟩ ⟨299792458, 0, 0, 0, 0, 0⟩ []
        ⟨false, 50, LightTimeFailureHandling.accept_without_warning, some 1⟩
        (positionDistance ⟨299792458, 0, 0, 0, 0, 0⟩ ⟨0, 0, 0, 0, 0, 0⟩ /
          getSpeedOfLight) 0).currentCorrection_ :=
  C10_return_equals_cache_sum ScalarTag.doubleTag
    (staticCalc ⟨0, 0, 0, 0, 0, 0⟩ ⟨299792458, 0, 0, 0, 0, 0⟩ []
      ⟨false, 50, LightTimeFailureHandling.accept_without_warning, some 1⟩ 0 0)
    [none, none] [none, none] 0 true 0 (0 + 1 + 1) _
    (staticSolve_eval ScalarTag.doubleTag ⟨0, 0, 0, 0, 0, 0⟩
      ⟨299792458, 0, 0, 0, 0, 0⟩ []
      ⟨false, 50, LightTimeFailureHandling.accept_without_warning, some 1⟩ 0 0 0
      [none, none] [none, none] 0 true 0 0 (by intro a b t1 t2; simp) rfl
      (by rw [getAbsoluteTolerance_some]; norm_num) rfl (by norm_num) (Or.inl rfl))

/-- C1: behavior of the convergence check at the iteration limit with the change
still at tolerance (prev 0, new 1, tolerance 1/2, maxIterations 0, correction 37,
time 5). AcceptSilently reports convergence, so the loop exits returning the
current unconverged estimate; Throw raises the convergence failure carrying the
residual, the correction and the time, returning no value. WarnAndAccept prints
the warning carrying the same data but leaves isToleranceReached false, so the
solve keeps iterating instead of returning the estimate, contradicting the
accept-after-warning behavior stated by the claim (the enum name
print_warning_and_accept and the surrounding comment show the intent). -/
theorem C1_failure_policy_behavior :
    isLightTimeSolutionConverged ScalarTag.doubleTag
        ⟨false, 0, LightTimeFailureHandling.accept_without_warning, some (1 / 2)⟩
        0 1 0 37 5 true = Except.ok ⟨true, true, []⟩ ∧
    isLightTimeSolutionConverged ScalarTag.doubleTag
        ⟨false, 0, LightTimeFailureHandling.print_warning_and_accept, some (1 / 2)⟩
        0 1 0 37 5 true = Except.ok ⟨false, true, [⟨1, 37, 5⟩]⟩ ∧
    isLightTimeSolutionConverged ScalarTag.doubleTag
        ⟨false, 0, LightTimeFailureHandling.throw_exception, some (1 / 2)⟩
        0 1 0 37 5 true =
      Except.error (LightTimeError.lightTimeUnconverged ⟨1, 37, 5⟩) := by
  refine ⟨?_, ?_, ?_⟩
  · rw [isConverged_max_accept _ _ _ _ _ _ _ _ (by
      rw [getAbsoluteTolerance_some]; norm_num) rfl rfl]
  · rw [isConverged_max_warn _ _ _ _ _ _ _ _ (by
      rw [getAbsoluteTolerance_some]; norm_num) rfl rfl]
    norm_num
  · rw [isConverged_max_throw _ _ _ _ _ _ _ _ (by
      rw [getAbsoluteTolerance_some]; norm_num) rfl rfl]
    norm_num

/- Oscillating single-leg scenario for C2: a receiver fixed at the origin and a
transmitter whose position at transmission time tau is -(c * oscG tau) on the x
axis, so that successive estimates alternate between 1 and 2 forever. -/

/-- Piecewise factor of the oscillating transmitter position. -/
noncomputable def oscG : ℝ → ℝ := fun tau => if tau = -1 then 2 else 1

/-- State provider of the oscillating transmitter. -/
noncomputable def oscTransmitterFun : ℝ → Vec6 :=
  fun tau => ⟨-(getSpeedOfLight * oscG tau), 0, 0, 0, 0, 0⟩

/-- State of a link end fixed at the origin. -/
def originState : Vec6 := ⟨0, 0, 0, 0, 0, 0⟩

theorem oscG_pos (tau : ℝ) : 0 < oscG tau := by
  unfold oscG
  split <;> norm_num

theorem oscG_zero : oscG 0 = 1 := by
  unfold oscG
  norm_num

theorem oscG_neg_one : oscG (-1) = 2 := by
  unfold oscG
  norm_num

theorem oscG_neg_two : oscG (-2) = 1 := by
  unfold oscG
  norm_num

theorem oscG_swap (p : ℝ) (hp : p = 1 ∨ p = 2) :
    oscG (-p) = 1 ∨ oscG (-p) = 2 := by
  rcases hp with rfl | rfl
  · exact Or.inr oscG_neg_one
  · exact Or.inl oscG_neg_two

theorem oscDist (tau : ℝ) :
    positionDistance originState (oscTransmitterFun tau) =
      getSpeedOfLight * oscG tau := by
  rw [positionDistance_eq_abs originState (oscTransmitterFun tau) rfl rfl]
  show |(0 : ℝ) - -(getSpeedOfLight * oscG tau)| = _
  rw [sub_neg_eq_add, zero_add]
  exact abs_of_pos (mul_pos getSpeedOfLight_pos (oscG_pos tau))

theorem oscDist_div (tau : ℝ) :
    positionDistance originState (oscTransmitterFun tau) / getSpeedOfLight =
      oscG tau := by
  rw [oscDist, mul_div_cancel_left₀ _ getSpeedOfLight_ne_zero]

/-- The residual of one oscillating iteration is always 1. -/
theorem osc_residual (p : ℝ) (hp : p = 1 ∨ p = 2) : |oscG (-p) - p| = 1 := by
  rcases hp with rfl | rfl
  · rw [oscG_neg_one]; norm_num
  · rw [oscG_neg_two]; norm_num

/-- One oscillating loop iteration under the warn-and-accept policy: the residual
stays at 1, at least the tolerance 1/2, so the check never reports convergence;
at the iteration limit 2 it prints the warning and the loop continues anyway. -/
theorem oscStep_warn (ideal rt tt : ℝ) (txs : Vec6) (n : ℤ) (p : ℝ)
    (hp : p = 1 ∨ p = 2) :
    lightTimeIterationStep ScalarTag.doubleTag 0 true
        ⟨⟨oscTransmitterFun, fun _ => originState, [],
          ⟨false, 2, LightTimeFailureHandling.print_warning_and_accept,
            some (1 / 2)⟩, ideal, 0⟩, rt, tt, originState, txs, p, n, false⟩ =
      LightTimeStepOutcome.continueLoop
        ⟨⟨oscTransmitterFun, fun _ => originState, [],
          ⟨false, 2, LightTimeFailureHandling.print_warning_and_accept,
            some (1 / 2)⟩, oscG (-p), 0⟩, 0, -p, originState,
          oscTransmitterFun (-p), oscG (-p), n + 1, false⟩
        (if n = 2 then [⟨1, 0, 0⟩] else []) := by
  have ha : ¬ |oscG (-p) - p| <
      LightTimeConvergenceCriteria.getAbsoluteTolerance
        ⟨false, 2, LightTimeFailureHandling.print_warning_and_accept, some (1 / 2)⟩
        ScalarTag.doubleTag := by
    rw [getAbsoluteTolerance_some, osc_residual p hp]
    norm_num
  simp only [lightTimeIterationStep, Bool.false_eq_true, if_false, if_true,
    eq_self_iff_true, LightTimeCalculator.calculateNewLightTimeEstimate]
  rw [zero_sub, oscDist_div]
  by_cases hn : n = 2
  · rw [isConverged_max_warn ScalarTag.doubleTag
      ⟨false, 2, LightTimeFailureHandling.print_warning_and_accept, some (1 / 2)⟩
      p (oscG (-p) + 0) n 0 0 false (by rw [add_zero]; exact ha) hn rfl]
    simp [osc_residual p hp, hn]
  · rw [isConverged_notMax ScalarTag.doubleTag
      ⟨false, 2, LightTimeFailureHandling.print_warning_and_accept, some (1 / 2)⟩
      p (oscG (-p) + 0) n 0 0 false (by rw [add_zero]; exact ha) hn]
    simp [hn]

/-- The oscillating loop never exits under the warn-and-accept policy, with any
fuel, from any estimate in the 2-cycle, at any counter value. -/
theorem oscLoop_none : ∀ (fuel : ℕ) (p : ℝ), (p = 1 ∨ p = 2) →
    ∀ (ideal rt tt : ℝ) (txs : Vec6) (n : ℤ) (w : List LightTimeWarning),
    lightTimeLoop ScalarTag.doubleTag 0 true fuel
      ⟨⟨oscTransmitterFun, fun _ => originState, [],
        ⟨false, 2, LightTimeFailureHandling.print_warning_and_accept,
          some (1 / 2)⟩, ideal, 0⟩, rt, tt, originState, txs, p, n, false⟩ w =
      none := by
  intro fuel
  induction fuel with
  | zero => intro p hp ideal rt tt txs n w; rfl
  | succ m ih =>
    intro p hp ideal rt tt txs n w
    rw [lightTimeLoop, oscStep_warn ideal rt tt txs n p hp]
    exact ih (oscG (-p)) (oscG_swap p hp) (oscG (-p)) 0 (-p)
      (oscTransmitterFun (-p)) (n + 1) _

/-- C2: with the warn-and-accept policy, the oscillating single-leg solve (cold
start at time 0, tolerance 1/2, maxIterations 2, no corrections) never returns
and never raises: for every iteration bound the loop is still running, so no
function of maxIterations bounds the work of the solve. -/
theorem C2_warn_policy_no_termination : ∀ (fuel : ℕ),
    (⟨oscTransmitterFun, fun _ => originState, [],
      ⟨false, 2, LightTimeFailureHandling.print_warning_and_accept, some (1 / 2)⟩,
      0, 0⟩ : LightTimeCalculator).calculateLightTimeWithMultiLegLinkEndsStates
      ScalarTag.doubleTag [none, none] [none, none] 0 true 0 fuel = none := by
  intro fuel
  have hguard : ¬(([none, none] : List (Option Vec6)).length ≠
      ([none, none] : List (Option ℝ)).length ∨
      0 + 1 > ([none, none] : List (Option ℝ)).length - 1) := by
    push_neg
    exact ⟨rfl, by norm_num⟩
  simp only [LightTimeCalculator.calculateLightTimeWithMultiLegLinkEndsStates]
  rw [if_neg hguard, initialGuessTimes_cold [none, none] 0 (0 + 1) 0 (Or.inl rfl)]
  simp [List.foldl, LightTimeCalculator.setTotalLightTimeCorrection,
    LightTimeCalculator.calculateNewLightTimeEstimate, oscDist_div, oscG_zero]
  rw [show ((2 : ℝ))⁻¹ = 1 / 2 from by norm_num]
  rw [oscLoop_none fuel 1 (Or.inl rfl) 1 0 0 (oscTransmitterFun 0) 0 []]

/-- Witness for C2: even with fuel for 100 iterations, far beyond
maxIterations = 2, the warn-and-accept solve is still running. -/
theorem C2_warn_policy_no_termination_witness :
    (⟨oscTransmitterFun, fun _ => originState, [],
      ⟨false, 2, LightTimeFailureHandling.print_warning_and_accept, some (1 / 2)⟩,
      0, 0⟩ : LightTimeCalculator).calculateLightTimeWithMultiLegLinkEndsStates
      ScalarTag.doubleTag [none, none] [none, none] 0 true 0 100 = none :=
  C2_warn_policy_no_termination 100

/- Moving-transmitter scenario for C4: with a large tolerance every iteration is
within tolerance, so the accepted estimate depends on the iteration path and hence
on the seed. -/

/-- Piecewise factor of the moving transmitter position used for C4. -/
noncomputable def g4 : ℝ → ℝ :=
  fun tau => if tau = 5 then 2 else if tau = -2 then 3 else if tau = -3 then 3 else 1

/-- State provider of the moving transmitter used for C4. -/
noncomputable def warmTransmitterFun : ℝ → Vec6 :=
  fun tau => ⟨-(getSpeedOfLight * g4 tau), 0, 0, 0, 0, 0⟩

theorem g4_pos (tau : ℝ) : 0 < g4 tau := by
  unfold g4
  split
  · norm_num
  · split
    · norm_num
    · split <;> norm_num

theorem g4_zero : g4 0 = 1 := by
  unfold g4
  norm_num

theorem g4_neg_one : g4 (-1) = 1 := by
  unfold g4
  norm_num

theorem g4_five : g4 5 = 2 := by
  unfold g4
  norm_num

theorem g4_neg_two : g4 (-2) = 3 := by
  unfold g4
  norm_num

theorem g4_neg_three : g4 (-3) = 3 := by
  unfold g4
  norm_num

theorem warmDist_div (tau : ℝ) :
    positionDistance originState (warmTransmitterFun tau) / getSpeedOfLight =
      g4 tau := by
  rw [positionDistance_eq_abs originState (warmTransmitterFun tau) rfl rfl]
  show |(0 : ℝ) - -(getSpeedOfLight * g4 tau)| / getSpeedOfLight = _
  rw [sub_neg_eq_add, zero_add, abs_of_pos (mul_pos getSpeedOfLight_pos (g4_pos tau)),
    mul_div_cancel_left₀ _ getSpeedOfLight_ne_zero]

/-- One loop iteration of the moving-transmitter scenario (tolerance 10): every
change is within tolerance, so a flag-false iteration forces the guard iteration
and a flag-true iteration exits. -/
theorem warmStep (ideal rt tt : ℝ) (txs : Vec6) (n : ℤ) (flag : Bool) (p : ℝ)
    (hclose : |g4 (-p) - p| < 10) :
    lightTimeIterationStep ScalarTag.doubleTag 0 true
        ⟨⟨warmTransmitterFun, fun _ => originState, [],
          ⟨false, 50, LightTimeFailureHandling.accept_without_warning, some 10⟩,
          ideal, 0⟩, rt, tt, originState, txs, p, n, flag⟩ =
      (if flag then LightTimeStepOutcome.exitLoop
        else LightTimeStepOutcome.continueLoop)
        ⟨⟨warmTransmitterFun, fun _ => originState, [],
          ⟨false, 50, LightTimeFailureHandling.accept_without_warning, some 10⟩,
          g4 (-p), 0⟩, 0, -p, originState, warmTransmitterFun (-p), g4 (-p),
          n + 1, true⟩ [] := by
  have ht : |g4 (-p) + 0 - p| <
      LightTimeConvergenceCriteria.getAbsoluteTolerance
        ⟨false, 50, LightTimeFailureHandling.accept_without_warning, some 10⟩
        ScalarTag.doubleTag := by
    rw [getAbsoluteTolerance_some, add_zero]
    exact hclose
  cases flag
  · simp only [lightTimeIterationStep, Bool.false_eq_true, if_false, if_true,
      eq_self_iff_true, LightTimeCalculator.calculateNewLightTimeEstimate]
    rw [zero_sub, warmDist_div]
    rw [isConverged_below_flag_false ScalarTag.doubleTag
      ⟨false, 50, LightTimeFailureHandling.accept_without_warning, some 10⟩
      p (g4 (-p) + 0) n 0 0 ht]
    simp
  · simp only [lightTimeIterationStep, if_true, eq_self_iff_true,
      LightTimeCalculator.setTotalLightTimeCorrection, List.foldl,
      LightTimeCalculator.calculateNewLightTimeEstimate]
    rw [zero_sub, warmDist_div]
    rw [isConverged_below_flag_true ScalarTag.doubleTag
      ⟨false, 50, LightTimeFailureHandling.accept_without_warning, some 10⟩
      p (g4 (-p) + 0) n 0 0 ht]
    simp

/-- Counterexample to C4: for the moving-transmitter calculator, a cold start
(both warm-start times NaN) returns light time 1, while the warm start seeded at
transmission time 5 and reception time 0 returns light time 3 — the warm start
changes the returned light time, not only the iteration count. -/
theorem C4_warm_start_changes_result :
    singleLegLightTimeOf
        ((⟨warmTransmitterFun, fun _ => originState, [],
          ⟨false, 50, LightTimeFailureHandling.accept_without_warning, some 10⟩,
          0, 0⟩ : LightTimeCalculator).calculateLightTimeWithMultiLegLinkEndsStates
          ScalarTag.doubleTag [none, none] [none, none] 0 true 0 2) = some 1 ∧
    singleLegLightTimeOf
        ((⟨warmTransmitterFun, fun _ => originState, [],
          ⟨false, 50, LightTimeFailureHandling.accept_without_warning, some 10⟩,
          0, 0⟩ : LightTimeCalculator).calculateLightTimeWithMultiLegLinkEndsStates
          ScalarTag.doubleTag [none, none] [some 5, some 0] 0 true 0 2) = some 3 ∧
    (1 : ℝ) ≠ 3 := by
  have hguard : ¬(([none, none] : List (Option Vec6)).length ≠
      ([none, none] : List (Option ℝ)).length ∨
      0 + 1 > ([none, none] : List (Option ℝ)).length - 1) := by
    push_neg
    exact ⟨rfl, by norm_num⟩
  have hguard2 : ¬(([none, none] : List (Option Vec6)).length ≠
      ([some (5 : ℝ), some 0] : List (Option ℝ)).length ∨
      0 + 1 > ([some (5 : ℝ), some 0] : List (Option ℝ)).length - 1) := by
    push_neg
    exact ⟨rfl, by norm_num⟩
  refine ⟨?_, ?_, by norm_num⟩
  · -- cold start: estimates 1, 1; returns 1
    have h1 := warmStep 1 0 0 (warmTransmitterFun 0) 0 false 1
      (by rw [g4_neg_one]; norm_num)
    rw [g4_neg_one] at h1
    have h2 := warmStep 1 0 (-1) (warmTransmitterFun (-1)) 1 true 1
      (by rw [g4_neg_one]; norm_num)
    rw [g4_neg_one] at h2
    simp only [Bool.false_eq_true, if_false, if_true] at h1 h2
    have hrun := (lightTimeLoop_continue ScalarTag.doubleTag 0 true 1 _ _ [] _
      h1).trans (lightTimeLoop_exit ScalarTag.doubleTag 0 true 0 _ _ ([] ++ []) _ h2)
    simp only [LightTimeCalculator.calculateLightTimeWithMultiLegLinkEndsStates]
    rw [if_neg hguard, initialGuessTimes_cold [none, none] 0 (0 + 1) 0 (Or.inl rfl)]
    simp [List.foldl, LightTimeCalculator.setTotalLightTimeCorrection,
      LightTimeCalculator.calculateNewLightTimeEstimate, warmDist_div, g4_zero]
    rw [show (2 : ℕ) = 1 + 1 from rfl, hrun]
    rfl
  · -- warm start: estimates 2, 3, 3; returns 3
    have h1 := warmStep 2 0 5 (warmTransmitterFun 5) 0 false 2
      (by rw [g4_neg_two]; norm_num)
    rw [g4_neg_two] at h1
    have h2 := warmStep 2 0 (-2) (warmTransmitterFun (-2)) 1 true 3
      (by rw [g4_neg_three]; norm_num)
    rw [g4_neg_three] at h2
    simp only [Bool.false_eq_true, if_false, if_true] at h1 h2
    have hrun := (lightTimeLoop_continue ScalarTag.doubleTag 0 true 1 _ _ [] _
      h1).trans (lightTimeLoop_exit ScalarTag.doubleTag 0 true 0 _ _ ([] ++ []) _ h2)
    simp only [LightTimeCalculator.calculateLightTimeWithMultiLegLinkEndsStates]
    rw [if_neg hguard2, initialGuessTimes_warm [some 5, some 0] 0 (0 + 1) 0 5 0 rfl rfl]
    simp [List.foldl, LightTimeCalculator.setTotalLightTimeCorrection,
      LightTimeCalculator.calculateNewLightTimeEstimate, warmDist_div, g4_five]
    rw [show (2 : ℕ) = 1 + 1 from rfl, hrun]
    rfl

/-- C4 as amended by the counterexample: the seed of a single-leg solve is chosen
exactly as specified — when both warm-start times are finite they are used as the
transmission and reception seeds, and otherwise both ends are seeded at the input
time — but the warm start may change the returned light time and output times, not
only the iteration count. -/
theorem C4_seed_selection (times : List (Option ℝ)) (ti ri : ℕ) (t a b : ℝ) :
    (times.getD ti none = some a → times.getD ri none = some b →
      initialGuessTimes times ti ri t = (b, a)) ∧
    (times.getD ti none = none → initialGuessTimes times ti ri t = (t, t)) ∧
    (times.getD ri none = none → initialGuessTimes times ti ri t = (t, t)) := by
  refine ⟨?_, ?_, ?_⟩
  · intro h1 h2
    exact initialGuessTimes_warm times ti ri t a b h1 h2
  · intro h1
    exact initialGuessTimes_cold times ti ri t (Or.inl h1)
  · intro h2
    exact initialGuessTimes_cold times ti ri t (Or.inr h2)

/-- Witness for the amended C4 at concrete time vectors. -/
theorem C4_seed_selection_witness :
    initialGuessTimes [some 5, some 0] 0 1 0 = ((0 : ℝ), (5 : ℝ)) ∧
    initialGuessTimes [none, some 0] 0 1 7 = ((7 : ℝ), (7 : ℝ)) ∧
    initialGuessTimes [some 5, none] 0 1 7 = ((7 : ℝ), (7 : ℝ)) :=
  ⟨(C4_seed_selection [some 5, some 0] 0 1 0 5 0).1 rfl rfl,
    (C4_seed_selection [none, some 0] 0 1 7 5 0).2.1 rfl,
    (C4_seed_selection [some 5, none] 0 1 7 5 0).2.2 rfl⟩

/- Unfolding lemmas for the two multi-leg walks. -/

theorem moveBackwards_zero (tag : ScalarTag) (delays : List ℝ) (fuel : ℕ)
    (s : MultiLegWalkState) :
    moveBackwards tag delays fuel 0 s = some (Except.ok s) :=
  rfl

theorem moveBackwards_step (tag : ScalarTag) (delays : List ℝ) (fuel i ti : ℕ)
    (s : MultiLegWalkState) (legCalculator : LightTimeCalculator)
    (r : SingleLegSolveOutput) (hti : 2 * i = ti)
    (hget : s.lightTimeCalculators.get? i = some legCalculator)
    (hsolve : legCalculator.calculateLightTimeWithMultiLegLinkEndsStates tag
      s.linkEndsStates s.linkEndsTimes s.currentLinkEndTime true ti fuel =
      some (Except.ok r)) :
    moveBackwards tag delays fuel (i + 1) s =
      moveBackwards tag delays fuel i
        ⟨s.lightTimeCalculators.set i r.calculator, r.linkEndsStates,
          r.linkEndsTimes,
          s.currentLinkEndTime - (r.lightTime + delays.getD i 0),
          s.totalLightTime + (r.lightTime + delays.getD i 0),
          s.warnings ++ r.warnings⟩ := by
  rw [moveBackwards, hget, hti]
  simp only [hsolve]

theorem moveForwards_zero (tag : ScalarTag) (delays : List ℝ) (fuel i : ℕ)
    (s : MultiLegWalkState) :
    moveForwards tag delays fuel 0 i s = some (Except.ok s) :=
  rfl

theorem moveForwards_step (tag : ScalarTag) (delays : List ℝ) (fuel rem i ti : ℕ)
    (s : MultiLegWalkState) (legCalculator : LightTimeCalculator)
    (r : SingleLegSolveOutput) (hti : 2 * i = ti)
    (hget : s.lightTimeCalculators.get? i = some legCalculator)
    (hsolve : legCalculator.calculateLightTimeWithMultiLegLinkEndsStates tag
      s.linkEndsStates s.linkEndsTimes s.currentLinkEndTime false ti fuel =
      some (Except.ok r)) :
    moveForwards tag delays fuel (rem + 1) i s =
      moveForwards tag delays fuel rem (i + 1)
        ⟨s.lightTimeCalculators.set i r.calculator, r.linkEndsStates,
          r.linkEndsTimes,
          s.currentLinkEndTime + (r.lightTime + delays.getD (i + 1) 0),
          s.totalLightTime + (r.lightTime + delays.getD (i + 1) 0),
          s.warnings ++ r.warnings⟩ := by
  rw [moveForwards, hget, hti]
  simp only [hsolve]

/-- C5: delay-vector normalization of the multi-leg solve. Absent ancillary
settings yield the all-zero vector of length linkEnds; a supplied vector of
length linkEnds is used as-is; a supplied vector of length linkEnds - 2 is padded
with one zero at each end; any other supplied length makes the whole solve return
the configuration error immediately, whatever the legs and their failure
policies. -/
theorem C5_delay_normalization :
    (∀ n : ℕ, normalizeRetransmissionDelays n none =
      Except.ok (List.replicate n 0)) ∧
    (∀ (n : ℕ) (ds : List ℝ), ds.length = n →
      normalizeRetransmissionDelays n (some ds) = Except.ok ds) ∧
    (∀ (n : ℕ) (ds : List ℝ), 1 ≤ n → ds.length = n - 2 →
      normalizeRetransmissionDelays n (some ds) =
        Except.ok (0 :: (ds ++ [0]))) ∧
    (∀ (m : MultiLegLightTimeCalculator) (tag : ScalarTag) (t : ℝ)
        (startIdx : ℕ) (ds : List ℝ) (fuel : ℕ),
      ds.length ≠ m.numberOfLinkEnds → ds.length ≠ m.numberOfLinkEnds - 2 →
      m.calculateLightTimeWithLinkEndsStates tag t startIdx (some ds) fuel =
        some (Except.error (LightTimeError.invalidRetransmissionDelaysSize
          ds.length m.numberOfLinkEnds (m.numberOfLinkEnds - 2)))) := by
  refine ⟨fun n => rfl, ?_, ?_, ?_⟩
  · intro n ds h
    simp only [normalizeRetransmissionDelays]
    rw [if_pos h]
  · intro n ds hn h
    simp only [normalizeRetransmissionDelays]
    rw [if_neg (by omega), if_pos h]
  · intro m tag t startIdx ds fuel h1 h2
    have hnorm : normalizeRetransmissionDelays m.numberOfLinkEnds (some ds) =
        Except.error (LightTimeError.invalidRetransmissionDelaysSize ds.length
          m.numberOfLinkEnds (m.numberOfLinkEnds - 2)) := by
      simp only [normalizeRetransmissionDelays]
      rw [if_neg h1, if_neg h2]
    simp only [MultiLegLightTimeCalculator.calculateLightTimeWithLinkEndsStates]
    rw [hnorm]

/-- Witness for C5: a 3-link-end chain; absent settings, length-3 as-is, length-1
padded, and the claim-named malformed case of a length-2 vector (length = link
ends - 1) raising the configuration error. -/
theorem C5_delay_normalization_witness :
    normalizeRetransmissionDelays 3 none = Except.ok (List.replicate 3 0) ∧
    normalizeRetransmissionDelays 3 (some [4, 5, 6]) = Except.ok [4, 5, 6] ∧
    normalizeRetransmissionDelays 3 (some [9]) =
      Except.ok (0 :: ([9] ++ [0])) ∧
    (⟨[staticCalc originState originState []
        ⟨false, 50, LightTimeFailureHandling.accept_without_warning, some 1⟩ 0 0,
      staticCalc originState originState []
        ⟨false, 50, LightTimeFailureHandling.accept_without_warning, some 1⟩ 0 0],
      ⟨false, 50, LightTimeFailureHandling.accept_without_warning, some 1⟩⟩ :
      MultiLegLightTimeCalculator).calculateLightTimeWithLinkEndsStates
      ScalarTag.doubleTag 0 0 (some [1, 2]) 0 =
      some (Except.error
        (LightTimeError.invalidRetransmissionDelaysSize 2 3 1)) :=
  ⟨C5_delay_normalization.1 3,
    C5_delay_normalization.2.1 3 [4, 5, 6] rfl,
    C5_delay_normalization.2.2.1 3 [9] (by norm_num) rfl,
    C5_delay_normalization.2.2.2 _ ScalarTag.doubleTag 0 0 [1, 2] 0
      (by norm_num [MultiLegLightTimeCalculator.numberOfLinkEnds])
      (by norm_num [MultiLegLightTimeCalculator.numberOfLinkEnds])⟩

/-- C6: if the reference link end of a multi-leg solve is interior and its
normalized retransmission delay is non-zero, the solve returns the configuration
error; with a zero delay at an interior reference it proceeds normally, shown on
a 2-leg chain of coincident link ends whose solve completes with total light
time 0. -/
theorem C6_interior_reference :
    (∀ (m : MultiLegLightTimeCalculator) (tag : ScalarTag) (t : ℝ)
        (startIdx : ℕ) (anc : Option (List ℝ)) (delays : List ℝ) (fuel : ℕ),
      normalizeRetransmissionDelays m.numberOfLinkEnds anc = Except.ok delays →
      startIdx ≠ 0 → startIdx ≠ m.numberOfLinkEnds - 1 →
      delays.getD startIdx 0 ≠ 0 →
      m.calculateLightTimeWithLinkEndsStates tag t startIdx anc fuel =
        some (Except.error LightTimeError.nonzeroReferenceLinkEndDelay)) ∧
    multiLegTotalLightTimeOf
        ((⟨[staticCalc originState originState []
            ⟨false, 50, LightTimeFailureHandling.accept_without_warning, some 1⟩
            0 0,
          staticCalc originState originState []
            ⟨false, 50, LightTimeFailureHandling.accept_without_warning, some 1⟩
            0 0],
          ⟨false, 50, LightTimeFailureHandling.accept_without_warning, some 1⟩⟩ :
          MultiLegLightTimeCalculator).calculateLightTimeWithLinkEndsStates
          ScalarTag.doubleTag 0 1 (some [0, 0, 0]) 2) = some 0 := by
  constructor
  · intro m tag t startIdx anc delays fuel hnorm h0 hn1 hdel
    simp only [MultiLegLightTimeCalculator.calculateLightTimeWithLinkEndsStates]
    simp only [hnorm]
    rw [if_pos ⟨h0, hn1, hdel⟩]
  · have hd : positionDistance originState originState = 0 := by
      rw [positionDistance_eq_abs originState originState rfl rfl]
      norm_num
    simp only [MultiLegLightTimeCalculator.calculateLightTimeWithLinkEndsStates,
      MultiLegLightTimeCalculator.numberOfLinkEnds,
      MultiLegLightTimeCalculator.numberOfLinks, List.length_cons, List.length_nil]
    simp only [show normalizeRetransmissionDelays 3 (some [0, 0, 0]) =
      Except.ok [0, 0, 0] from rfl]
    rw [if_neg (by norm_num)]
    norm_num
    have hs1 := staticSolve_eval ScalarTag.doubleTag originState originState []
      ⟨false, 50, LightTimeFailureHandling.accept_without_warning, some 1⟩ 0 0 0
      (List.replicate 4 none) (List.replicate 4 none) 0 true 0 0
      (by intro a b t1 t2; simp) rfl (by rw [getAbsoluteTolerance_some]; norm_num)
      rfl (by norm_num) (Or.inl rfl)
    rw [hd] at hs1
    norm_num at hs1
    have hback := (moveBackwards_step ScalarTag.doubleTag [0, 0, 0] 2 0 0
      ⟨[staticCalc originState originState []
          ⟨false, 50, LightTimeFailureHandling.accept_without_warning, some 1⟩ 0 0,
        staticCalc originState originState []
          ⟨false, 50, LightTimeFailureHandling.accept_without_warning, some 1⟩ 0 0],
        List.replicate 4 none, List.replicate 4 none, 0, 0, []⟩
      (staticCalc originState originState []
        ⟨false, 50, LightTimeFailureHandling.accept_without_warning, some 1⟩ 0 0)
      _ rfl rfl hs1).trans
      (moveBackwards_zero ScalarTag.doubleTag [0, 0, 0] 2 _)
    norm_num at hback
    simp only [hback]
    have hs2 := staticSolve_eval ScalarTag.doubleTag originState originState []
      ⟨false, 50, LightTimeFailureHandling.accept_without_warning, some 1⟩ 0 0 0
      (((List.replicate 4 none).set 1 (some originState)).set 0 (some originState))
      (((List.replicate 4 none).set 1 (some 0)).set 0 (some 0))
      0 false 2 0
      (by intro a b t1 t2; simp) rfl (by rw [getAbsoluteTolerance_some]; norm_num)
      (by simp) (by simp) (Or.inl rfl)
    rw [hd] at hs2
    norm_num at hs2
    have hfwd := (moveForwards_step ScalarTag.doubleTag [0, 0, 0] 2 0 1 2
      ⟨[staticCalc originState originState []
          ⟨false, 50, LightTimeFailureHandling.accept_without_warning, some 1⟩ 0 0,
        staticCalc originState originState []
          ⟨false, 50, LightTimeFailureHandling.accept_without_warning, some 1⟩ 0 0],
        ((List.replicate 4 none).set 1 (some originState)).set 0 (some originState),
        ((List.replicate 4 none).set 1 (some 0)).set 0 (some 0), 0, 0, []⟩
      (staticCalc originState originState []
        ⟨false, 50, LightTimeFailureHandling.accept_without_warning, some 1⟩ 0 0)
      _ rfl rfl hs2).trans
      (moveForwards_zero ScalarTag.doubleTag [0, 0, 0] 2 2 _)
    norm_num at hfwd
    simp only [hfwd]
    rfl

/-- Witness for C6: a 3-link-end chain with delays [0, 1, 0] and the interior
link end 1 as reference raises the configuration error. -/
theorem C6_interior_reference_witness :
    (⟨[staticCalc originState originState []
        ⟨false, 50, LightTimeFailureHandling.accept_without_warning, some 1⟩ 0 0,
      staticCalc originState originState []
        ⟨false, 50, LightTimeFailureHandling.accept_without_warning, some 1⟩ 0 0],
      ⟨false, 50, LightTimeFailureHandling.accept_without_warning, some 1⟩⟩ :
      MultiLegLightTimeCalculator).calculateLightTimeWithLinkEndsStates
      ScalarTag.doubleTag 0 1 (some [0, 1, 0]) 5 =
      some (Except.error LightTimeError.nonzeroReferenceLinkEndDelay) :=
  C6_interior_reference.1 _ ScalarTag.doubleTag 0 1 (some [0, 1, 0]) [0, 1, 0] 5
    rfl (by norm_num)
    (by norm_num [MultiLegLightTimeCalculator.numberOfLinkEnds])
    (by simp)

end LightTime
